import Mathlib

/-!
# Verification of the pallet-doc-extractor correlation & reconciliation engine

Shallow embedding of the TypeScript sources of `pallet-doc-extractor`:
the pallet-type normalizers, the correlator's stop extraction / merge /
gap-filling logic, the two-pass validator, the output-row builder and the
classification confidence clamping.  JavaScript numbers are modelled as `Int`
(quantities, saldi) and `Rat` (confidence scores); optional / nullable fields
are modelled as `Option`; JavaScript string falsiness (`""` is falsy) is made
explicit where the source relies on it.
-/

set_option maxHeartbeats 1000000

namespace PalletDoc

/-! ## String primitives

JavaScript's `toLowerCase`, `trim` and `includes`, restricted to the character
repertoire the sources actually use (ASCII plus the German umlauts appearing in
the alias tables). -/

/-- Lower-case a character the way `String.prototype.toLowerCase` does on the
alphabet used by the normalizer tables: ASCII letters and the German umlauts. -/
def lowerChar (c : Char) : Char :=
  if 'A' ≤ c ∧ c ≤ 'Z' then Char.ofNat (c.toNat + 32)
  else if c = 'Ä' then 'ä'
  else if c = 'Ö' then 'ö'
  else if c = 'Ü' then 'ü'
  else c

/-- `s.toLowerCase().trim()` as used by every normalizer in the sources. -/
def lowerTrim (s : String) : String :=
  let chars := (s.toList.map lowerChar)
  let chars := (chars.dropWhile Char.isWhitespace).reverse
  let chars := (chars.dropWhile Char.isWhitespace).reverse
  String.mk chars

/-- Does `l` start with `n`?  (helper for the substring test). -/
def listStarts : List Char → List Char → Bool
  | _, [] => true
  | [], _ :: _ => false
  | c :: cs, d :: ds => c == d && listStarts cs ds

/-- Does `hay` contain `needle` as a contiguous substring?
Mirrors `String.prototype.includes`. -/
def listHasSub (needle : List Char) : List Char → Bool
  | [] => listStarts [] needle
  | c :: t => listStarts (c :: t) needle || listHasSub needle t

/-- `hay.includes(needle)` on strings. -/
def strHasSub (hay needle : String) : Bool :=
  listHasSub needle.toList hay.toList

/-- JavaScript truthiness of an optional string: `undefined`/`null` and the
empty string are falsy. -/
def truthyStr (o : Option String) : Bool :=
  match o with
  | none => false
  | some s => s ≠ ""

/-- `a || b` on optional strings (JavaScript `||` skips falsy values). -/
def orStr (a b : Option String) : Option String :=
  if truthyStr a then a else b

/-! ## Pallet types and the two normalizers the claims cite

`src/src/lib/extractor.ts` (the v2 pipeline) uses the five-valued `PalletType`
enumeration; the v0.10 group extractor (`normalizePalletType` in the unnamed
part holding `extractDocumentGroup`) uses the thirteen-valued
`V010PalletType`. -/

/-- `PalletType` of `src/src/types/index.ts` (v2 pipeline). -/
inductive PalletType where
  | EUR
  | Duesseldorfer
  | CHEP
  | Gitterbox
  | unknown
deriving DecidableEq, Repr, Inhabited

/-- `V010PalletType` (closed enumeration of the v0.10 schema). -/
inductive V010PalletType where
  | EUR
  | EURNT
  | Einweg
  | Duesseldorfer
  | CHEP
  | CHEPHALB
  | CHEPVIERTEL
  | Gitterbox
  | Plastik
  | H1
  | Rollcontainer
  | Industrie
  | unknown
deriving DecidableEq, Repr

/-- `normalizePalletType` from `src/src/lib/extractor.ts` (v2 pipeline):
substring alias rules for EUR / Düsseldorfer / CHEP / Gitterbox only. -/
def normalizePalletTypeV2 (type : String) : PalletType :=
  let normalized := lowerTrim type
  if strHasSub normalized "eur" || strHasSub normalized "euro"
      || normalized == "ep" then .EUR
  else if strHasSub normalized "düss" || strHasSub normalized "duss"
      || normalized == "dd" || normalized == "h1" then .Duesseldorfer
  else if strHasSub normalized "chep" then .CHEP
  else if strHasSub normalized "gitter" || normalized == "gb" then .Gitterbox
  else .unknown

/-- Does any alias rule of the v2 normalizer match `type`? -/
def v2Matched (type : String) : Bool :=
  let n := lowerTrim type
  strHasSub n "eur" || strHasSub n "euro" || n == "ep"
    || strHasSub n "düss" || strHasSub n "duss" || n == "dd" || n == "h1"
    || strHasSub n "chep" || strHasSub n "gitter" || n == "gb"

/-- `normalizePalletType` from the v0.10 group extractor: the rule chain is
applied top to bottom, `EUR-NT` (exact match or "nicht tausch") before the
generic `eur` substring rule, `chep-halb` / `chep-viertel` before generic
`chep`. -/
def normalizePalletTypeV010 (type : String) : V010PalletType :=
  let normalized := lowerTrim type
  if normalized == "eur-nt" || strHasSub normalized "nicht tausch" then .EURNT
  else if strHasSub normalized "eur" || strHasSub normalized "euro"
      || normalized == "ep" then .EUR
  else if strHasSub normalized "einweg" then .Einweg
  else if strHasSub normalized "düss" || strHasSub normalized "duss"
      || normalized == "dd" || strHasSub normalized "halbpal" then .Duesseldorfer
  else if strHasSub normalized "chep-halb" || strHasSub normalized "chep halb" then .CHEPHALB
  else if strHasSub normalized "chep-viertel" || strHasSub normalized "chep viertel" then .CHEPVIERTEL
  else if strHasSub normalized "chep" then .CHEP
  else if strHasSub normalized "gitter" || normalized == "gb" then .Gitterbox
  else if strHasSub normalized "plastik" || strHasSub normalized "kunststoff" then .Plastik
  else if normalized == "h1" then .H1
  else if strHasSub normalized "roll" then .Rollcontainer
  else if strHasSub normalized "industrie" then .Industrie
  else .unknown

/-- Does any alias rule of the v0.10 normalizer match `type`? -/
def v010Matched (type : String) : Bool :=
  let n := lowerTrim type
  n == "eur-nt" || strHasSub n "nicht tausch"
    || strHasSub n "eur" || strHasSub n "euro" || n == "ep"
    || strHasSub n "einweg"
    || strHasSub n "düss" || strHasSub n "duss" || n == "dd" || strHasSub n "halbpal"
    || strHasSub n "chep-halb" || strHasSub n "chep halb"
    || strHasSub n "chep-viertel" || strHasSub n "chep viertel"
    || strHasSub n "chep"
    || strHasSub n "gitter" || n == "gb"
    || strHasSub n "plastik" || strHasSub n "kunststoff"
    || n == "h1"
    || strHasSub n "roll"
    || strHasSub n "industrie"

/-! ### Substring monotonicity: a string containing `"eur-nt"` contains `"eur"` -/

theorem listStarts_append {l a b : List Char} (h : listStarts l (a ++ b) = true) :
    listStarts l a = true := by
  induction a generalizing l with
  | nil => simp [listStarts]
  | cons c cs ih =>
    cases l with
    | nil => simp [listStarts] at h
    | cons d ds =>
      simp only [List.cons_append, listStarts, Bool.and_eq_true] at h ⊢
      exact ⟨h.1, ih h.2⟩

theorem listHasSub_append {a b hay : List Char}
    (h : listHasSub (a ++ b) hay = true) : listHasSub a hay = true := by
  induction hay with
  | nil =>
    simp only [listHasSub] at h ⊢
    exact listStarts_append h
  | cons c t ih =>
    simp only [listHasSub, Bool.or_eq_true] at h ⊢
    rcases h with h | h
    · exact Or.inl (listStarts_append h)
    · exact Or.inr (ih h)

/-! ## Pallet movements and the two per-type merge functions

`mergePalletMovements` (`src/src/lib/correlator.ts`) and
`consolidatePalletMovements` (v0.10 result processor) both fold a movement
list into an insertion-ordered map keyed by pallet type, adding quantities and
— when the incoming `damaged` field is truthy — damaged counts. -/

/-- `PalletQuality` of `src/src/types/index.ts`. -/
inductive PalletQuality where
  | A
  | B
  | mixed
deriving DecidableEq, Repr

/-- `PalletMovement` of `src/src/types/index.ts`; `damaged` and `quality` are
optional. -/
structure PalletMovement where
  palletType : PalletType
  quantity : Int
  damaged : Option Int := none
  quality : Option PalletQuality := none
deriving DecidableEq, Repr

/-- `V010PalletMovement` (v0.10 schema). -/
structure V010PalletMovement where
  type : V010PalletType
  qty : Int
  damaged : Option Int := none
  reason : Option String := none
deriving DecidableEq, Repr

/-- JavaScript truthiness of an optional number (`0` and `undefined` are
falsy). -/
def truthyNum (o : Option Int) : Bool :=
  match o with
  | none => false
  | some x => x ≠ 0

/-- `x || 0` (equally `x ?? 0` at the sites modelled here). -/
def damagedOr0 (o : Option Int) : Int := o.getD 0

/-- `if (m.damaged) { existing.damaged = (existing.damaged || 0) + m.damaged }`
applied to the stored optional damaged count. -/
def addDamaged (e m : Option Int) : Option Int :=
  if truthyNum m then some (damagedOr0 e + damagedOr0 m) else e

/-- One step of `mergePalletMovements`: update the first entry with the same
`palletType` in place, else append a copy (`Map.set` keeps insertion order). -/
def upsertMovement : List PalletMovement → PalletMovement → List PalletMovement
  | [], m => [m]
  | x :: xs, m =>
    if x.palletType = m.palletType then
      { x with quantity := x.quantity + m.quantity,
               damaged := addDamaged x.damaged m.damaged } :: xs
    else
      x :: upsertMovement xs m

/-- `mergePalletMovements` from `src/src/lib/correlator.ts`. -/
def mergePalletMovements (movements : List PalletMovement) : List PalletMovement :=
  movements.foldl upsertMovement []

/-- One step of `consolidatePalletMovements` (v0.10), keyed by `type`. -/
def upsertV010Movement : List V010PalletMovement → V010PalletMovement → List V010PalletMovement
  | [], m => [m]
  | x :: xs, m =>
    if x.type = m.type then
      { x with qty := x.qty + m.qty,
               damaged := addDamaged x.damaged m.damaged } :: xs
    else
      x :: upsertV010Movement xs m

/-- `consolidatePalletMovements` from the v0.10 result processor. -/
def consolidatePalletMovements (movements : List V010PalletMovement) : List V010PalletMovement :=
  movements.foldl upsertV010Movement []

/-- Total quantity a movement list carries for one pallet type. -/
def qtyOf (l : List PalletMovement) (t : PalletType) : Int :=
  ((l.filter (fun m => m.palletType = t)).map (fun m => m.quantity)).sum

/-- Total damaged count (absent = 0) a movement list carries for one type. -/
def dmgOf (l : List PalletMovement) (t : PalletType) : Int :=
  ((l.filter (fun m => m.palletType = t)).map (fun m => damagedOr0 m.damaged)).sum

/-- Total quantity for one type, v0.10 movements. -/
def qtyOfV010 (l : List V010PalletMovement) (t : V010PalletType) : Int :=
  ((l.filter (fun m => m.type = t)).map (fun m => m.qty)).sum

/-- Total damaged count for one type, v0.10 movements. -/
def dmgOfV010 (l : List V010PalletMovement) (t : V010PalletType) : Int :=
  ((l.filter (fun m => m.type = t)).map (fun m => damagedOr0 m.damaged)).sum

@[simp] theorem qtyOf_nil (t : PalletType) : qtyOf [] t = 0 := rfl

@[simp] theorem dmgOf_nil (t : PalletType) : dmgOf [] t = 0 := rfl

@[simp] theorem qtyOfV010_nil (t : V010PalletType) : qtyOfV010 [] t = 0 := rfl

@[simp] theorem dmgOfV010_nil (t : V010PalletType) : dmgOfV010 [] t = 0 := rfl

theorem damagedOr0_addDamaged (e m : Option Int) :
    damagedOr0 (addDamaged e m) = damagedOr0 e + damagedOr0 m := by
  unfold addDamaged truthyNum
  cases m with
  | none => simp [damagedOr0]
  | some v =>
    by_cases hv : v = 0 <;> simp [hv, damagedOr0]

theorem qtyOf_cons (m : PalletMovement) (l : List PalletMovement) (t : PalletType) :
    qtyOf (m :: l) t = (if m.palletType = t then m.quantity else 0) + qtyOf l t := by
  unfold qtyOf
  by_cases h : m.palletType = t <;> simp [h, List.filter_cons]

theorem dmgOf_cons (m : PalletMovement) (l : List PalletMovement) (t : PalletType) :
    dmgOf (m :: l) t = (if m.palletType = t then damagedOr0 m.damaged else 0) + dmgOf l t := by
  unfold dmgOf
  by_cases h : m.palletType = t <;> simp [h, List.filter_cons]

theorem qtyOf_append (a b : List PalletMovement) (t : PalletType) :
    qtyOf (a ++ b) t = qtyOf a t + qtyOf b t := by
  unfold qtyOf
  simp [List.filter_append]

theorem dmgOf_append (a b : List PalletMovement) (t : PalletType) :
    dmgOf (a ++ b) t = dmgOf a t + dmgOf b t := by
  unfold dmgOf
  simp [List.filter_append]

theorem qtyOf_upsert (acc : List PalletMovement) (m : PalletMovement) (t : PalletType) :
    qtyOf (upsertMovement acc m) t
      = qtyOf acc t + (if m.palletType = t then m.quantity else 0) := by
  induction acc with
  | nil =>
    by_cases h2 : m.palletType = t <;> simp [upsertMovement, qtyOf, h2]
  | cons x xs ih =>
    by_cases h : x.palletType = m.palletType
    · by_cases h2 : m.palletType = t <;>
        simp [upsertMovement, h, h2, qtyOf_cons] <;> ring
    · simp only [upsertMovement, if_neg h, qtyOf_cons, ih]
      ring

theorem dmgOf_upsert (acc : List PalletMovement) (m : PalletMovement) (t : PalletType) :
    dmgOf (upsertMovement acc m) t
      = dmgOf acc t + (if m.palletType = t then damagedOr0 m.damaged else 0) := by
  induction acc with
  | nil =>
    by_cases h2 : m.palletType = t <;> simp [upsertMovement, dmgOf, h2]
  | cons x xs ih =>
    by_cases h : x.palletType = m.palletType
    · by_cases h2 : m.palletType = t <;>
        simp [upsertMovement, h, h2, dmgOf_cons, damagedOr0_addDamaged] <;> ring
    · simp only [upsertMovement, if_neg h, dmgOf_cons, ih]
      ring

theorem qtyOf_foldl (ms acc : List PalletMovement) (t : PalletType) :
    qtyOf (ms.foldl upsertMovement acc) t = qtyOf acc t + qtyOf ms t := by
  induction ms generalizing acc with
  | nil => simp [qtyOf]
  | cons m ms ih =>
    simp only [List.foldl_cons, ih, qtyOf_upsert, qtyOf_cons]
    ring

theorem dmgOf_foldl (ms acc : List PalletMovement) (t : PalletType) :
    dmgOf (ms.foldl upsertMovement acc) t = dmgOf acc t + dmgOf ms t := by
  induction ms generalizing acc with
  | nil => simp [dmgOf]
  | cons m ms ih =>
    simp only [List.foldl_cons, ih, dmgOf_upsert, dmgOf_cons]
    ring

theorem qtyOf_merge (ms : List PalletMovement) (t : PalletType) :
    qtyOf (mergePalletMovements ms) t = qtyOf ms t := by
  unfold mergePalletMovements
  simpa [qtyOf] using qtyOf_foldl ms [] t

theorem dmgOf_merge (ms : List PalletMovement) (t : PalletType) :
    dmgOf (mergePalletMovements ms) t = dmgOf ms t := by
  unfold mergePalletMovements
  simpa [dmgOf] using dmgOf_foldl ms [] t

theorem qtyOfV010_cons (m : V010PalletMovement) (l : List V010PalletMovement) (t : V010PalletType) :
    qtyOfV010 (m :: l) t = (if m.type = t then m.qty else 0) + qtyOfV010 l t := by
  unfold qtyOfV010
  by_cases h : m.type = t <;> simp [h, List.filter_cons]

theorem dmgOfV010_cons (m : V010PalletMovement) (l : List V010PalletMovement) (t : V010PalletType) :
    dmgOfV010 (m :: l) t = (if m.type = t then damagedOr0 m.damaged else 0) + dmgOfV010 l t := by
  unfold dmgOfV010
  by_cases h : m.type = t <;> simp [h, List.filter_cons]

theorem qtyOfV010_append (a b : List V010PalletMovement) (t : V010PalletType) :
    qtyOfV010 (a ++ b) t = qtyOfV010 a t + qtyOfV010 b t := by
  unfold qtyOfV010
  simp [List.filter_append]

theorem dmgOfV010_append (a b : List V010PalletMovement) (t : V010PalletType) :
    dmgOfV010 (a ++ b) t = dmgOfV010 a t + dmgOfV010 b t := by
  unfold dmgOfV010
  simp [List.filter_append]

theorem qtyOfV010_upsert (acc : List V010PalletMovement) (m : V010PalletMovement) (t : V010PalletType) :
    qtyOfV010 (upsertV010Movement acc m) t
      = qtyOfV010 acc t + (if m.type = t then m.qty else 0) := by
  induction acc with
  | nil =>
    by_cases h2 : m.type = t <;> simp [upsertV010Movement, qtyOfV010, h2]
  | cons x xs ih =>
    by_cases h : x.type = m.type
    · by_cases h2 : m.type = t <;>
        simp [upsertV010Movement, h, h2, qtyOfV010_cons] <;> ring
    · simp only [upsertV010Movement, if_neg h, qtyOfV010_cons, ih]
      ring

theorem dmgOfV010_upsert (acc : List V010PalletMovement) (m : V010PalletMovement) (t : V010PalletType) :
    dmgOfV010 (upsertV010Movement acc m) t
      = dmgOfV010 acc t + (if m.type = t then damagedOr0 m.damaged else 0) := by
  induction acc with
  | nil =>
    by_cases h2 : m.type = t <;> simp [upsertV010Movement, dmgOfV010, h2]
  | cons x xs ih =>
    by_cases h : x.type = m.type
    · by_cases h2 : m.type = t <;>
        simp [upsertV010Movement, h, h2, dmgOfV010_cons, damagedOr0_addDamaged] <;> ring
    · simp only [upsertV010Movement, if_neg h, dmgOfV010_cons, ih]
      ring

theorem qtyOfV010_foldl (ms acc : List V010PalletMovement) (t : V010PalletType) :
    qtyOfV010 (ms.foldl upsertV010Movement acc) t = qtyOfV010 acc t + qtyOfV010 ms t := by
  induction ms generalizing acc with
  | nil => simp [qtyOfV010]
  | cons m ms ih =>
    simp only [List.foldl_cons, ih, qtyOfV010_upsert, qtyOfV010_cons]
    ring

theorem dmgOfV010_foldl (ms acc : List V010PalletMovement) (t : V010PalletType) :
    dmgOfV010 (ms.foldl upsertV010Movement acc) t = dmgOfV010 acc t + dmgOfV010 ms t := by
  induction ms generalizing acc with
  | nil => simp [dmgOfV010]
  | cons m ms ih =>
    simp only [List.foldl_cons, ih, dmgOfV010_upsert, dmgOfV010_cons]
    ring

theorem qtyOfV010_consolidate (ms : List V010PalletMovement) (t : V010PalletType) :
    qtyOfV010 (consolidatePalletMovements ms) t = qtyOfV010 ms t := by
  unfold consolidatePalletMovements
  simpa [qtyOfV010] using qtyOfV010_foldl ms [] t

theorem dmgOfV010_consolidate (ms : List V010PalletMovement) (t : V010PalletType) :
    dmgOfV010 (consolidatePalletMovements ms) t = dmgOfV010 ms t := by
  unfold consolidatePalletMovements
  simpa [dmgOfV010] using dmgOfV010_foldl ms [] t

/-! ## Claim C6 — pallet-type normalization -/

theorem strHasSub_eurnt_eur {n : String} (h : strHasSub n "eur-nt" = true) :
    strHasSub n "eur" = true := by
  have e : ("eur-nt".toList) = "eur".toList ++ "-nt".toList := by decide
  unfold strHasSub at h ⊢
  rw [e] at h
  exact listHasSub_append h

/-- Disjunction of the v0.10 alias rules tried before the `chep-halb` rule. -/
def v010BeforeChepHalb (type : String) : Bool :=
  let n := lowerTrim type
  n == "eur-nt" || strHasSub n "nicht tausch"
    || strHasSub n "eur" || strHasSub n "euro" || n == "ep"
    || strHasSub n "einweg"
    || strHasSub n "düss" || strHasSub n "duss" || n == "dd" || strHasSub n "halbpal"

/-- Disjunction of the v0.10 alias rules tried before the `chep-viertel` rule. -/
def v010BeforeChepViertel (type : String) : Bool :=
  v010BeforeChepHalb type
    || strHasSub (lowerTrim type) "chep-halb" || strHasSub (lowerTrim type) "chep halb"

/-- C6 (counterexample): the claim says a label containing `"eur-nt"`
normalizes to EUR-NT and not EUR, and labels containing `"chep-halb"`
normalize to CHEP-HALB and not CHEP.  The v2 normalizer
(`src/src/lib/extractor.ts`) has no EUR-NT or CHEP-HALB rule at all and maps
`"eur-nt"` to EUR and `"chep-halb"` to CHEP; the v0.10 normalizer matches
`"eur-nt"` only exactly, so `"eur-nt 24"` also falls to the generic EUR
rule. -/
theorem claim_C6_counterexample :
    normalizePalletTypeV2 "eur-nt" = PalletType.EUR
  ∧ normalizePalletTypeV2 "chep-halb" = PalletType.CHEP
  ∧ normalizePalletTypeV010 "eur-nt 24" = V010PalletType.EUR := by decide

/-- C6 (amended): both normalizers are pure total functions into their closed
enumerations and return `unknown` whenever no alias rule matches.  In the
v0.10 normalizer the label exactly `"eur-nt"` maps to EUR-NT ahead of the
generic EUR rule, while a label that merely contains `"eur-nt"` (and is not
exactly it, nor contains `"nicht tausch"`) falls through to EUR; labels
containing `"chep-halb"` / `"chep-viertel"` map to CHEP-HALB / CHEP-VIERTEL
rather than CHEP provided no earlier rule of the chain matches. -/
theorem claim_C6_amended (s : String) :
    (v010Matched s = false → normalizePalletTypeV010 s = V010PalletType.unknown)
  ∧ (v2Matched s = false → normalizePalletTypeV2 s = PalletType.unknown)
  ∧ (lowerTrim s = "eur-nt" → normalizePalletTypeV010 s = V010PalletType.EURNT)
  ∧ (strHasSub (lowerTrim s) "eur-nt" = true → lowerTrim s ≠ "eur-nt" →
      strHasSub (lowerTrim s) "nicht tausch" = false →
      normalizePalletTypeV010 s = V010PalletType.EUR)
  ∧ (strHasSub (lowerTrim s) "chep-halb" = true → v010BeforeChepHalb s = false →
      normalizePalletTypeV010 s = V010PalletType.CHEPHALB)
  ∧ (strHasSub (lowerTrim s) "chep-viertel" = true → v010BeforeChepViertel s = false →
      normalizePalletTypeV010 s = V010PalletType.CHEPVIERTEL) := by
  refine ⟨?_, ?_, ?_, ?_, ?_, ?_⟩
  · intro h
    simp_all [normalizePalletTypeV010, v010Matched]
  · intro h
    simp_all [normalizePalletTypeV2, v2Matched]
  · intro h
    simp [normalizePalletTypeV010, h]
  · intro h1 h2 h3
    have he := strHasSub_eurnt_eur h1
    simp [normalizePalletTypeV010, h2, h3, he]
  · intro h1 h2
    simp_all [normalizePalletTypeV010, v010BeforeChepHalb]
  · intro h1 h2
    simp_all [normalizePalletTypeV010, v010BeforeChepViertel, v010BeforeChepHalb]

/-- C6 witness: the amended theorem applied at concrete labels. -/
theorem claim_C6_amended_witness :
    normalizePalletTypeV010 "banana" = V010PalletType.unknown
  ∧ normalizePalletTypeV2 "banana" = PalletType.unknown
  ∧ normalizePalletTypeV010 " EUR-NT " = V010PalletType.EURNT
  ∧ normalizePalletTypeV010 "xeur-nt" = V010PalletType.EUR
  ∧ normalizePalletTypeV010 "2x chep-halb" = V010PalletType.CHEPHALB
  ∧ normalizePalletTypeV010 "chep-viertel" = V010PalletType.CHEPVIERTEL :=
  ⟨(claim_C6_amended "banana").1 (by decide),
   (claim_C6_amended "banana").2.1 (by decide),
   (claim_C6_amended " EUR-NT ").2.2.1 (by decide),
   (claim_C6_amended "xeur-nt").2.2.2.1 (by decide) (by decide) (by decide),
   (claim_C6_amended "2x chep-halb").2.2.2.2.1 (by decide) (by decide),
   (claim_C6_amended "chep-viertel").2.2.2.2.2 (by decide) (by decide)⟩

/-! ## Claim C7 — per-type merge is a commutative summation -/

/-- C7: merging movement lists at one stop identity is order-independent for
the per-type totals and sums quantities (and damaged counts) per pallet type:
for `mergePalletMovements` (correlator) and `consolidatePalletMovements`
(v0.10), merging `A ++ B` and `B ++ A` give the same per-type quantity and
damaged totals, each equal to the sum of the inputs' totals for that type. -/
theorem claim_C7_merge_summation (A B : List PalletMovement) (t : PalletType)
    (A2 B2 : List V010PalletMovement) (t2 : V010PalletType) :
    qtyOf (mergePalletMovements (A ++ B)) t = qtyOf A t + qtyOf B t
  ∧ qtyOf (mergePalletMovements (A ++ B)) t = qtyOf (mergePalletMovements (B ++ A)) t
  ∧ dmgOf (mergePalletMovements (A ++ B)) t = dmgOf A t + dmgOf B t
  ∧ dmgOf (mergePalletMovements (A ++ B)) t = dmgOf (mergePalletMovements (B ++ A)) t
  ∧ qtyOfV010 (consolidatePalletMovements (A2 ++ B2)) t2
      = qtyOfV010 A2 t2 + qtyOfV010 B2 t2
  ∧ qtyOfV010 (consolidatePalletMovements (A2 ++ B2)) t2
      = qtyOfV010 (consolidatePalletMovements (B2 ++ A2)) t2
  ∧ dmgOfV010 (consolidatePalletMovements (A2 ++ B2)) t2
      = dmgOfV010 A2 t2 + dmgOfV010 B2 t2
  ∧ dmgOfV010 (consolidatePalletMovements (A2 ++ B2)) t2
      = dmgOfV010 (consolidatePalletMovements (B2 ++ A2)) t2 := by
  refine ⟨?_, ?_, ?_, ?_, ?_, ?_, ?_, ?_⟩ <;>
    simp [qtyOf_merge, dmgOf_merge, qtyOfV010_consolidate, dmgOfV010_consolidate,
      qtyOf_append, dmgOf_append, qtyOfV010_append, dmgOfV010_append] <;> ring

/-! ## Correlator data model (`src/src/lib/correlator.ts`, `src/src/types/index.ts`) -/

/-- `LocationType` of `src/src/types/index.ts`. -/
inductive LocationType where
  | pickup
  | delivery
deriving DecidableEq, Repr

/-- Signature block `{driver?: bool; customer?: bool}`. -/
structure Signatures where
  driver : Option Bool := none
  customer : Option Bool := none
deriving DecidableEq, Repr

/-- `StopExtraction` of `src/src/types/index.ts` (post-merge canonical stop). -/
structure StopExtraction where
  locationType : LocationType
  locationName : String
  locationAddress : Option String := none
  date : Option String := none
  time : Option String := none
  palletsReceived : List PalletMovement := []
  palletsGiven : List PalletMovement := []
  exchanged : Bool := false
  signatures : Option Signatures := none
  notes : Option (List String) := none
deriving DecidableEq, Repr

/-- `Partial<StopExtraction>`: every field possibly absent. -/
structure PartialStop where
  locationType : Option LocationType := none
  locationName : Option String := none
  locationAddress : Option String := none
  date : Option String := none
  time : Option String := none
  palletsReceived : Option (List PalletMovement) := none
  palletsGiven : Option (List PalletMovement) := none
  exchanged : Option Bool := none
  signatures : Option Signatures := none
  notes : Option (List String) := none
deriving DecidableEq, Repr, Inhabited

/-- `s.toLowerCase()` (no trim) as used for the merge key. -/
def lowerStr (s : String) : String := String.mk (s.toList.map lowerChar)

/-- `stop.locationName?.toLowerCase() || "unknown"` — the merge key of
`mergeStops`.  Note: the key does NOT include the stop role. -/
def stopKey (o : Option String) : String :=
  match o with
  | none => "unknown"
  | some s => let l := lowerStr s; if l = "" then "unknown" else l

/-- `a || b` on optional booleans (JS `||` returns the second operand unless
the first is truthy). -/
def orOptBool (a b : Option Bool) : Option Bool :=
  if a = some true then a else b

/-- The in-place update `mergeStops` performs when the key is already present. -/
def mergeInto (existing : StopExtraction) (stop : PartialStop) : StopExtraction :=
  { existing with
    palletsReceived :=
      mergePalletMovements (existing.palletsReceived ++ stop.palletsReceived.getD []),
    palletsGiven :=
      mergePalletMovements (existing.palletsGiven ++ stop.palletsGiven.getD []),
    date := orStr existing.date stop.date,
    time := orStr existing.time stop.time,
    locationAddress := orStr existing.locationAddress stop.locationAddress,
    exchanged := existing.exchanged || stop.exchanged.getD false,
    signatures :=
      match stop.signatures with
      | some sig =>
          some { driver := orOptBool (existing.signatures.bind Signatures.driver) sig.driver,
                 customer := orOptBool (existing.signatures.bind Signatures.customer) sig.customer }
      | none => existing.signatures,
    notes :=
      match stop.notes with
      | some ns => some (existing.notes.getD [] ++ ns)
      | none => existing.notes }

/-- The fresh `StopExtraction` `mergeStops` stores for an unseen key. -/
def newStop (stop : PartialStop) : StopExtraction :=
  { locationType := stop.locationType.getD LocationType.delivery,
    locationName := if truthyStr stop.locationName then stop.locationName.getD "Unknown" else "Unknown",
    locationAddress := stop.locationAddress,
    date := stop.date,
    time := stop.time,
    palletsReceived := stop.palletsReceived.getD [],
    palletsGiven := stop.palletsGiven.getD [],
    exchanged := stop.exchanged.getD false,
    signatures := stop.signatures,
    notes := stop.notes }

/-- One step of `mergeStops` on the insertion-ordered association list that
models the `Map`. -/
def upsertStop : List (String × StopExtraction) → String → PartialStop → List (String × StopExtraction)
  | [], k, stop => [(k, newStop stop)]
  | (k', e) :: rest, k, stop =>
    if k' = k then (k', mergeInto e stop) :: rest
    else (k', e) :: upsertStop rest k stop

/-- `mergeStops` of `src/src/lib/correlator.ts`, keeping the map entries. -/
def mergeStopsAssoc (stops : List PartialStop) : List (String × StopExtraction) :=
  stops.foldl (fun acc stop => upsertStop acc (stopKey stop.locationName) stop) []

/-- `mergeStops`: `Array.from(locationMap.values())`. -/
def mergeStops (stops : List PartialStop) : List StopExtraction :=
  (mergeStopsAssoc stops).map Prod.snd

/-! ## Per-document stop extraction (`src/src/lib/correlator.ts`) -/

/-- `PalettennachweisData` of `src/src/types/index.ts`. -/
structure PalettennachweisData where
  date : Option String := none
  location : Option String := none
  fromCompany : Option String := none
  toCompany : Option String := none
  palletsGiven : List PalletMovement := []
  palletsReceived : List PalletMovement := []
  reason : Option String := none
  signatures : Signatures := {}
  notes : Option (List String) := none
deriving DecidableEq, Repr

/-- One `palletExchange` row of `WareneingangselegData`. -/
structure PalletExchangeEntry where
  palletType : PalletType
  received : Int
  returned : Int
  saldo : Int
deriving DecidableEq, Repr

/-- `WareneingangselegData` of `src/src/types/index.ts`. -/
structure WareneingangselegData where
  date : Option String := none
  receiptNumber : Option String := none
  deliveryNumber : Option String := none
  supplier : Option String := none
  palletExchange : List PalletExchangeEntry := []
  confirmed : Bool := false
  notes : Option (List String) := none
deriving DecidableEq, Repr

/-- `beladeort` block of `LadelisteData`. -/
structure Beladeort where
  name : Option String := none
  address : Option String := none
deriving DecidableEq, Repr

/-- One entry of `LadelisteData.stops`. -/
structure LadelisteStop where
  stopNumber : Int
  customerName : Option String := none
  address : Option String := none
  pallets : List PalletMovement := []
deriving DecidableEq, Repr

/-- `LadelisteData` of `src/src/types/index.ts`. -/
structure LadelisteData where
  tour : Option String := none
  date : Option String := none
  pickupDate : Option String := none
  vehiclePlate : Option String := none
  driver : Option String := none
  sendungsnummer : Option String := none
  beladeort : Option Beladeort := none
  stops : List LadelisteStop := []
  totalPallets : Option (List PalletMovement) := none
  handwrittenNotes : Option (List String) := none
  pallettenNichtGetauscht : Option Bool := none
deriving DecidableEq, Repr

/-- `LieferscheinData` of `src/src/types/index.ts` (fields the correlator
reads). -/
structure LieferscheinData where
  stammnummer : Option String := none
  belegnummer : Option String := none
  tour : Option String := none
  bestelldatum : Option String := none
  lieferdatum : Option String := none
  senderName : Option String := none
  recipientName : Option String := none
  recipientAddress : Option String := none
  palletInfo : Option (List PalletMovement) := none
  corrections : Option (List PalletMovement) := none
deriving DecidableEq, Repr

/-- Total quantity of a movement list (`reduce((sum, p) => sum + p.quantity, 0)`). -/
def totalQty (l : List PalletMovement) : Int := (l.map (fun m => m.quantity)).sum

/-- The role decision inlined in `extractStopsFromPalettennachweis`
(`totalReceived`/`totalGave` are carrier-perspective totals). -/
def palettennachweisLocationType (totalReceived totalGave : Int) : LocationType :=
  if totalReceived > 0 ∧ totalGave = 0 then .pickup
  else if totalGave > 0 ∧ totalReceived = 0 then .delivery
  else if totalReceived > totalGave then .pickup
  else .delivery

/-- `extractStopsFromLieferschein`: a Lieferschein never yields a stop. -/
def extractStopsFromLieferschein (_data : LieferscheinData) : List PartialStop := []

/-- `extractStopsFromPalettennachweis`: the document is written from the
location's perspective, so the carrier received what the location gave and
vice versa. -/
def extractStopsFromPalettennachweis (data : PalettennachweisData) : List PartialStop :=
  let carrierReceived := data.palletsGiven
  let carrierGave := data.palletsReceived
  let totalReceived := totalQty carrierReceived
  let totalGave := totalQty carrierGave
  let locationType := palettennachweisLocationType totalReceived totalGave
  let locationName := orStr (orStr data.fromCompany data.toCompany) (some "Unknown")
  [{ locationType := some locationType,
     locationName := locationName,
     locationAddress := data.location,
     date := data.date,
     palletsReceived := some carrierReceived,
     palletsGiven := some carrierGave,
     exchanged := some (decide (carrierReceived.length > 0) && decide (carrierGave.length > 0)),
     signatures := some data.signatures,
     notes := data.notes }]

/-- The loop of `extractStopsFromWareneingangsbeleg`: quantities the location
received become carrier `palletsGiven`, quantities it returned become carrier
`palletsReceived`.  Result: `(palletsReceived, palletsGiven)`. -/
def webExchangeLists (entries : List PalletExchangeEntry) :
    List PalletMovement × List PalletMovement :=
  entries.foldl
    (fun acc e =>
      let given := if e.received > 0 then acc.2 ++ [{ palletType := e.palletType, quantity := e.received }] else acc.2
      let received := if e.returned > 0 then acc.1 ++ [{ palletType := e.palletType, quantity := e.returned }] else acc.1
      (received, given))
    ([], [])

/-- `extractStopsFromWareneingangsbeleg`. -/
def extractStopsFromWareneingangsbeleg (data : WareneingangselegData) : List PartialStop :=
  let lists := webExchangeLists data.palletExchange
  [{ locationType := some .delivery,
     locationName := some "__DELIVERY_LOCATION__",
     date := data.date,
     palletsReceived := some lists.1,
     palletsGiven := some lists.2,
     exchanged := some (decide (lists.1.length > 0) && decide (lists.2.length > 0)),
     notes := data.notes }]

/-- The `else if` branches of `extractStopsFromLadeliste` (reached when no
usable `beladeort` is present). -/
def extractStopsFromLadelisteNoBeladeort (data : LadelisteData) : List PartialStop :=
  match data.stops with
  | firstStop :: _ =>
    [{ locationType := some .pickup,
       locationName :=
         if truthyStr firstStop.customerName then firstStop.customerName
         else some ("Pickup " ++ toString firstStop.stopNumber),
       locationAddress := firstStop.address,
       date := orStr data.pickupDate data.date,
       palletsReceived :=
         some (if firstStop.pallets.length > 0 then firstStop.pallets
               else data.totalPallets.getD []),
       palletsGiven := some [],
       notes := data.handwrittenNotes }]
  | [] =>
    match data.totalPallets with
    | some tp =>
      if tp.length > 0 then
        [{ locationType := some .pickup,
           locationName := some "Unknown Pickup Location",
           date := orStr data.pickupDate data.date,
           palletsReceived := some tp,
           palletsGiven := some [],
           notes := data.handwrittenNotes }]
      else []
    | none => []

/-- `extractStopsFromLadeliste`: the loading list is carrier-perspective;
loaded pallets are recorded as carrier `palletsReceived`, never swapped. -/
def extractStopsFromLadeliste (data : LadelisteData) : List PartialStop :=
  match data.beladeort with
  | some b =>
    if truthyStr b.name || truthyStr b.address then
      [{ locationType := some .pickup,
         locationName := if truthyStr b.name then b.name else some "Pickup Location",
         locationAddress := b.address,
         date := orStr data.pickupDate data.date,
         palletsReceived := some (data.totalPallets.getD []),
         palletsGiven := some [],
         notes := data.handwrittenNotes }]
    else extractStopsFromLadelisteNoBeladeort data
  | none => extractStopsFromLadelisteNoBeladeort data

/-! ## Gap filling (`correlateDocuments`, `src/src/lib/correlator.ts`) -/

/-- Warning text appended by the assumed-exchange synthesis branch. -/
def gapFillWarningMsg : String :=
  "No wareneingangsbeleg found. Created delivery stop from Lieferschein consignee. Pallet exchange assumed (deliveryReceived = deliveryGiven)."

/-- The first synthesis branch of `correlateDocuments`: when the merged input
has pickup stops, no delivery stop and a (truthy) consignee, append one
synthetic delivery stop.  Takes the accumulated stop list, the consignee
identity from the Lieferschein metadata, the Lieferschein date and
`palletInfo` fallback list, and the warning accumulator. -/
def gapFillAssumedExchange (allStops : List PartialStop)
    (consignee consigneeAddress lieferDatum : Option String)
    (lieferscheinPallets : List PalletMovement)
    (allWarnings : List String) : List PartialStop × List String :=
  let hasPickupStops := allStops.any (fun s => s.locationType == some LocationType.pickup)
  let hasDeliveryStops := allStops.any (fun s => s.locationType == some LocationType.delivery)
  if hasPickupStops && !hasDeliveryStops && truthyStr consignee then
    let pickupPallets :=
      (allStops.filter (fun s => s.locationType == some LocationType.pickup)).flatMap
        (fun s => s.palletsReceived.getD [])
    let deliveryPallets :=
      if pickupPallets.length > 0 then pickupPallets else lieferscheinPallets
    if decide (deliveryPallets.length > 0) || truthyStr consignee then
      (allStops ++
        [{ locationType := some .delivery,
           locationName := consignee,
           locationAddress := consigneeAddress,
           date := lieferDatum,
           palletsReceived := some deliveryPallets,
           palletsGiven := some deliveryPallets,
           exchanged := some true }],
       allWarnings ++ [gapFillWarningMsg])
    else (allStops, allWarnings)
  else (allStops, allWarnings)

/-! ## Claim C2 — the merge key of `mergeStops` -/

theorem keys_upsertStop (acc : List (String × StopExtraction)) (k : String) (s : PartialStop) :
    (upsertStop acc k s).map Prod.fst =
      if k ∈ acc.map Prod.fst then acc.map Prod.fst else acc.map Prod.fst ++ [k] := by
  induction acc with
  | nil => simp [upsertStop]
  | cons p rest ih =>
    obtain ⟨k', e⟩ := p
    by_cases h : k' = k
    · simp [upsertStop, h]
    · simp only [upsertStop, if_neg h, List.map_cons, ih]
      by_cases hm : k ∈ rest.map Prod.fst
      · simp [hm, h, Ne.symm h]
      · simp [hm, h, Ne.symm h]

theorem nodup_keys_foldl (stops : List PartialStop) (acc : List (String × StopExtraction))
    (h : (acc.map Prod.fst).Nodup) :
    (((stops.foldl (fun acc stop => upsertStop acc (stopKey stop.locationName) stop) acc)).map
      Prod.fst).Nodup := by
  induction stops generalizing acc with
  | nil => exact h
  | cons s rest ih =>
    apply ih
    rw [keys_upsertStop]
    split
    · exact h
    · next hm => simp [List.nodup_append, h, hm]

/-- Sample record: pickup record naming "Lager Nord". -/
def stopPickupLager : PartialStop :=
  { locationType := some .pickup, locationName := some "Lager Nord" }

/-- Sample record: delivery record naming "Lager Nord". -/
def stopDeliveryLager : PartialStop :=
  { locationType := some .delivery, locationName := some "Lager Nord" }

/-- Sample record: pickup record without a location name. -/
def stopPickupNoName : PartialStop := { locationType := some .pickup }

/-- Sample record: delivery record without a location name. -/
def stopDeliveryNoName : PartialStop := { locationType := some .delivery }

/-- C2 (counterexample): the claim says records sharing a location name but
differing in role yield two distinct stops, and that nameless records get one
"unknown" bucket per role.  `mergeStops` keys only on the lowercased name, so
a pickup and a delivery record named "Lager Nord" merge into a single stop,
and two nameless records of different roles also merge into a single stop. -/
theorem claim_C2_counterexample :
    (mergeStops [stopPickupLager, stopDeliveryLager]).length = 1
  ∧ (mergeStops [stopPickupNoName, stopDeliveryNoName]).length = 1 := by decide

/-- C2 (amended): the merged result contains at most one stop per
lowercase-normalized location name — the role is NOT part of the merge key:
two records with the same name and different roles merge into one stop that
keeps the first record's role (default `delivery`), and records without a
location name share one "unknown" bucket across roles. -/
theorem claim_C2_amended (stops : List PartialStop) :
    ((mergeStopsAssoc stops).map Prod.fst).Nodup
  ∧ (∀ a b : PartialStop, stopKey a.locationName = stopKey b.locationName →
      mergeStops [a, b] = [mergeInto (newStop a) b]
      ∧ (mergeInto (newStop a) b).locationType = a.locationType.getD LocationType.delivery)
  ∧ (∀ a b : PartialStop, a.locationName = none → b.locationName = none →
      mergeStops [a, b] = [mergeInto (newStop a) b]) := by
  refine ⟨nodup_keys_foldl stops [] (by simp), ?_, ?_⟩
  · intro a b hk
    constructor
    · simp [mergeStops, mergeStopsAssoc, upsertStop, hk]
    · rfl
  · intro a b ha hb
    simp [mergeStops, mergeStopsAssoc, upsertStop, stopKey, ha, hb]

/-- C2 witness: the amended theorem applied to the concrete sample records. -/
theorem claim_C2_amended_witness :
    mergeStops [stopPickupLager, stopDeliveryLager]
      = [mergeInto (newStop stopPickupLager) stopDeliveryLager]
  ∧ (mergeInto (newStop stopPickupLager) stopDeliveryLager).locationType = LocationType.pickup
  ∧ mergeStops [stopPickupNoName, stopDeliveryNoName]
      = [mergeInto (newStop stopPickupNoName) stopDeliveryNoName] :=
  ⟨((claim_C2_amended []).2.1 stopPickupLager stopDeliveryLager (by decide)).1,
   by
     have h := ((claim_C2_amended []).2.1 stopPickupLager stopDeliveryLager (by decide)).2
     simpa [stopPickupLager] using h,
   (claim_C2_amended []).2.2 stopPickupNoName stopDeliveryNoName rfl rfl⟩

/-! ## Claim C4 — authorship perspective resolution -/

theorem webExchangeLists_foldl (entries : List PalletExchangeEntry) (r g : List PalletMovement) :
    entries.foldl
      (fun acc e =>
        let given := if e.received > 0 then acc.2 ++ [{ palletType := e.palletType, quantity := e.received }] else acc.2
        let received := if e.returned > 0 then acc.1 ++ [{ palletType := e.palletType, quantity := e.returned }] else acc.1
        (received, given)) (r, g)
    = (r ++ (entries.filter (fun e => e.returned > 0)).map
          (fun e => ({ palletType := e.palletType, quantity := e.returned } : PalletMovement)),
       g ++ (entries.filter (fun e => e.received > 0)).map
          (fun e => { palletType := e.palletType, quantity := e.received })) := by
  induction entries generalizing r g with
  | nil => simp
  | cons e rest ih =>
    by_cases hr : e.received > 0 <;> by_cases ht : e.returned > 0 <;>
      simp [hr, ht, ih, List.filter_cons]

theorem webExchangeLists_spec (entries : List PalletExchangeEntry) :
    webExchangeLists entries
    = ((entries.filter (fun e => e.returned > 0)).map
          (fun e => ({ palletType := e.palletType, quantity := e.returned } : PalletMovement)),
       (entries.filter (fun e => e.received > 0)).map
          (fun e => { palletType := e.palletType, quantity := e.received })) := by
  unfold webExchangeLists
  simpa using webExchangeLists_foldl entries [] []

theorem ladelisteNoBeladeort_pallets (ld : LadelisteData) :
    ∀ s ∈ extractStopsFromLadelisteNoBeladeort ld,
      s.palletsGiven = some []
      ∧ (s.palletsReceived = some (ld.totalPallets.getD [])
        ∨ ∃ fs rest, ld.stops = fs :: rest ∧ s.palletsReceived = some fs.pallets) := by
  intro s hs
  unfold extractStopsFromLadelisteNoBeladeort at hs
  cases hstops : ld.stops with
  | cons fs rest =>
    simp only [hstops] at hs
    simp at hs
    subst hs
    refine ⟨rfl, ?_⟩
    by_cases hp : fs.pallets.length > 0
    · exact Or.inr ⟨fs, rest, rfl, by simp [hp]⟩
    · exact Or.inl (by simp [hp])
  | nil =>
    simp only [hstops] at hs
    cases htp : ld.totalPallets with
    | some tp =>
      simp only [htp] at hs
      by_cases hl : tp.length > 0
      · simp [hl] at hs
        subst hs
        exact ⟨rfl, Or.inl (by simp [htp])⟩
      · simp [hl] at hs
    | none =>
      simp only [htp] at hs
      simp at hs

/-- C4: pallet-exchange receipts and goods-receipt confirmations are resolved
into carrier perspective by swapping the document's framing — the location's
`palletsGiven` become carrier `palletsReceived` and vice versa; in the
goods-receipt rows, `received` (by the location) becomes carrier
`palletsGiven` and `returned` becomes carrier `palletsReceived`.  Delivery
notes yield no stop at all, and loading-list stops are never swapped: their
loaded pallets are recorded verbatim as carrier `palletsReceived` with empty
`palletsGiven`. -/
theorem claim_C4_perspective (pd : PalettennachweisData) (wd : WareneingangselegData)
    (ld : LadelisteData) (lf : LieferscheinData) :
    (∀ s ∈ extractStopsFromPalettennachweis pd,
      s.palletsReceived = some pd.palletsGiven ∧ s.palletsGiven = some pd.palletsReceived)
  ∧ (∀ s ∈ extractStopsFromWareneingangsbeleg wd,
      s.palletsGiven = some ((wd.palletExchange.filter (fun e => e.received > 0)).map
          (fun e => { palletType := e.palletType, quantity := e.received }))
      ∧ s.palletsReceived = some ((wd.palletExchange.filter (fun e => e.returned > 0)).map
          (fun e => { palletType := e.palletType, quantity := e.returned })))
  ∧ extractStopsFromLieferschein lf = []
  ∧ (∀ s ∈ extractStopsFromLadeliste ld,
      s.palletsGiven = some []
      ∧ (s.palletsReceived = some (ld.totalPallets.getD [])
        ∨ ∃ fs rest, ld.stops = fs :: rest ∧ s.palletsReceived = some fs.pallets)) := by
  refine ⟨?_, ?_, rfl, ?_⟩
  · intro s hs
    simp [extractStopsFromPalettennachweis] at hs
    subst hs
    exact ⟨rfl, rfl⟩
  · intro s hs
    simp [extractStopsFromWareneingangsbeleg] at hs
    subst hs
    rw [webExchangeLists_spec]
    exact ⟨rfl, rfl⟩
  · intro s hs
    unfold extractStopsFromLadeliste at hs
    cases hb : ld.beladeort with
    | some b =>
      simp only [hb] at hs
      by_cases hc : (truthyStr b.name || truthyStr b.address) = true
      · simp only [hc, if_true] at hs
        simp at hs
        subst hs
        exact ⟨rfl, Or.inl rfl⟩
      · simp only [hc, if_false] at hs
        exact ladelisteNoBeladeort_pallets ld s hs
    | none =>
      simp only [hb] at hs
      exact ladelisteNoBeladeort_pallets ld s hs

/-- Sample Palettennachweis: location gave 10 EUR, received 2 CHEP. -/
def pnd0 : PalettennachweisData :=
  { palletsGiven := [{ palletType := .EUR, quantity := 10 }],
    palletsReceived := [{ palletType := .CHEP, quantity := 2 }] }

/-- Sample Wareneingangsbeleg: location received 33 EUR, returned 30 EUR. -/
def wed0 : WareneingangselegData :=
  { palletExchange := [{ palletType := .EUR, received := 33, returned := 30, saldo := 3 }] }

/-- Sample Ladeliste with a named loading location and 33 EUR loaded. -/
def lld0 : LadelisteData :=
  { beladeort := some { name := some "AL Bockenem" },
    totalPallets := some [{ palletType := .EUR, quantity := 33 }] }

/-- Sample (empty) Lieferschein. -/
def lfd0 : LieferscheinData := {}

/-- The single stop the sample Palettennachweis extracts to. -/
def palettennachweisStop0 : PartialStop := (extractStopsFromPalettennachweis pnd0).headI

/-- The single stop the sample Wareneingangsbeleg extracts to. -/
def wareneingangStop0 : PartialStop := (extractStopsFromWareneingangsbeleg wed0).headI

/-- The single stop the sample Ladeliste extracts to. -/
def ladelisteStop0 : PartialStop := (extractStopsFromLadeliste lld0).headI

/-- C4 witness: the perspective theorem applied to the concrete samples. -/
theorem claim_C4_perspective_witness :
    palettennachweisStop0.palletsReceived = some pnd0.palletsGiven
  ∧ palettennachweisStop0.palletsGiven = some pnd0.palletsReceived
  ∧ wareneingangStop0.palletsGiven
      = some ((wed0.palletExchange.filter (fun e => e.received > 0)).map
          (fun e => { palletType := e.palletType, quantity := e.received }))
  ∧ ladelisteStop0.palletsGiven = some [] :=
  ⟨((claim_C4_perspective pnd0 wed0 lld0 lfd0).1 palettennachweisStop0 (by decide)).1,
   ((claim_C4_perspective pnd0 wed0 lld0 lfd0).1 palettennachweisStop0 (by decide)).2,
   ((claim_C4_perspective pnd0 wed0 lld0 lfd0).2.1 wareneingangStop0 (by decide)).1,
   ((claim_C4_perspective pnd0 wed0 lld0 lfd0).2.2.2 ladelisteStop0 (by decide)).1⟩

/-! ## Claim C5 — role inference from movement totals -/

/-- C5: the first stop extracted from a Palettennachweis carries exactly the
role computed by the inlined classifier, and that classifier satisfies:
carrier-received > 0 with carrier-given = 0 gives pickup; carrier-given > 0
with carrier-received = 0 gives delivery; when both are positive the larger
total wins; an exact positive tie is assigned to delivery. -/
theorem claim_C5_role_classifier (d : PalettennachweisData) (tr tg : Int) :
    ((extractStopsFromPalettennachweis d).map PartialStop.locationType
        = [some (palettennachweisLocationType (totalQty d.palletsGiven) (totalQty d.palletsReceived))])
  ∧ (tr > 0 → tg = 0 → palettennachweisLocationType tr tg = .pickup)
  ∧ (tg > 0 → tr = 0 → palettennachweisLocationType tr tg = .delivery)
  ∧ (tr > 0 → tg > 0 → tr > tg → palettennachweisLocationType tr tg = .pickup)
  ∧ (tr > 0 → tg > 0 → tg > tr → palettennachweisLocationType tr tg = .delivery)
  ∧ (tr = tg → tr > 0 → palettennachweisLocationType tr tg = .delivery) := by
  refine ⟨by simp [extractStopsFromPalettennachweis], ?_, ?_, ?_, ?_, ?_⟩ <;>
    · intros
      unfold palettennachweisLocationType
      split_ifs <;> first | rfl | omega

/-- C5 witness: the classifier theorem applied at concrete totals. -/
theorem claim_C5_role_classifier_witness :
    palettennachweisLocationType 10 0 = LocationType.pickup
  ∧ palettennachweisLocationType 0 10 = LocationType.delivery
  ∧ palettennachweisLocationType 7 5 = LocationType.pickup
  ∧ palettennachweisLocationType 5 7 = LocationType.delivery
  ∧ palettennachweisLocationType 6 6 = LocationType.delivery :=
  ⟨(claim_C5_role_classifier pnd0 10 0).2.1 (by decide) (by decide),
   (claim_C5_role_classifier pnd0 0 10).2.2.1 (by decide) (by decide),
   (claim_C5_role_classifier pnd0 7 5).2.2.2.1 (by decide) (by decide) (by decide),
   (claim_C5_role_classifier pnd0 5 7).2.2.2.2.1 (by decide) (by decide) (by decide),
   (claim_C5_role_classifier pnd0 6 6).2.2.2.2.2 (by decide) (by decide)⟩

/-! ## Claim C3 — gap-filling synthesis of the assumed-exchange delivery stop -/

/-- The movement list the synthetic delivery stop receives: the concatenated
pickup-received movements, or — when those are empty — the Lieferschein
`palletInfo` fallback. -/
def gapFillPallets (allStops : List PartialStop) (lieferscheinPallets : List PalletMovement) :
    List PalletMovement :=
  let pickupPallets :=
    (allStops.filter (fun s => s.locationType == some LocationType.pickup)).flatMap
      (fun s => s.palletsReceived.getD [])
  if pickupPallets.length > 0 then pickupPallets else lieferscheinPallets

/-- Sample: a pickup stop whose own received-movement list is empty. -/
def pickupStopEmptyReceived : PartialStop :=
  { locationType := some .pickup, locationName := some "AL Bockenem",
    palletsReceived := some [] }

/-- Sample: Lieferschein `palletInfo` of 5 EUR. -/
def lieferscheinPalletInfo5 : List PalletMovement := [{ palletType := .EUR, quantity := 5 }]

/-- Sample: a pickup stop that received 3 EUR. -/
def pickupStopEUR3 : PartialStop :=
  { locationType := some .pickup, locationName := some "AL Bockenem",
    palletsReceived := some [{ palletType := .EUR, quantity := 3 }] }

/-- C3 (counterexample): the claim says the synthesized stop's movements both
equal the aggregated pickup-received movements.  With a pickup stop whose
received list is empty and a Lieferschein reporting 5 EUR, the synthesized
stop instead carries the Lieferschein pallets (5 EUR), although the
aggregated pickup-received movements are empty. -/
theorem claim_C3_counterexample :
    (gapFillAssumedExchange [pickupStopEmptyReceived] (some "Müller GmbH") none none
        lieferscheinPalletInfo5 []).1
      = [pickupStopEmptyReceived,
         { locationType := some .delivery, locationName := some "Müller GmbH",
           palletsReceived := some lieferscheinPalletInfo5,
           palletsGiven := some lieferscheinPalletInfo5, exchanged := some true }]
  ∧ ([pickupStopEmptyReceived].flatMap (fun s => s.palletsReceived.getD [])
      = ([] : List PalletMovement))
  ∧ lieferscheinPalletInfo5 ≠ [] := by decide

/-- C3 (amended): the synthesis fires exactly when the assembled stop list
has a pickup stop, no delivery stop, and a truthy consignee name; it then
appends exactly one delivery stop named after the consignee with
`exchanged = true`, whose `palletsReceived` and `palletsGiven` both equal the
concatenated pickup-received movements when non-empty and otherwise the
Lieferschein `palletInfo` movements, and appends the documented warning.  It
never fires when a delivery stop exists, when no pickup stop exists, or when
no consignee is known. -/
theorem claim_C3_amended (allStops : List PartialStop)
    (consignee consigneeAddress lieferDatum : Option String)
    (lieferscheinPallets : List PalletMovement) (warnings : List String) :
    (allStops.any (fun s => s.locationType == some LocationType.pickup) = true →
     allStops.any (fun s => s.locationType == some LocationType.delivery) = false →
     truthyStr consignee = true →
      gapFillAssumedExchange allStops consignee consigneeAddress lieferDatum lieferscheinPallets warnings
        = (allStops ++
            [{ locationType := some .delivery,
               locationName := consignee,
               locationAddress := consigneeAddress,
               date := lieferDatum,
               palletsReceived := some (gapFillPallets allStops lieferscheinPallets),
               palletsGiven := some (gapFillPallets allStops lieferscheinPallets),
               exchanged := some true }],
           warnings ++ [gapFillWarningMsg]))
  ∧ (allStops.any (fun s => s.locationType == some LocationType.delivery) = true →
      gapFillAssumedExchange allStops consignee consigneeAddress lieferDatum lieferscheinPallets warnings
        = (allStops, warnings))
  ∧ (allStops.any (fun s => s.locationType == some LocationType.pickup) = false →
      gapFillAssumedExchange allStops consignee consigneeAddress lieferDatum lieferscheinPallets warnings
        = (allStops, warnings))
  ∧ (truthyStr consignee = false →
      gapFillAssumedExchange allStops consignee consigneeAddress lieferDatum lieferscheinPallets warnings
        = (allStops, warnings)) := by
  refine ⟨?_, ?_, ?_, ?_⟩
  · intro h1 h2 h3
    simp [gapFillAssumedExchange, h1, h2, h3, gapFillPallets]
  · intro h
    simp [gapFillAssumedExchange, h]
  · intro h
    simp [gapFillAssumedExchange, h]
  · intro h
    simp [gapFillAssumedExchange, h]

/-- C3 witness: the amended theorem applied at concrete inputs — a firing
case (one pickup stop with 3 EUR received) and a non-firing case (no pickup
stops). -/
theorem claim_C3_amended_witness :
    gapFillAssumedExchange [pickupStopEUR3] (some "Müller GmbH") none none [] []
      = ([pickupStopEUR3,
          { locationType := some .delivery, locationName := some "Müller GmbH",
            palletsReceived := some (gapFillPallets [pickupStopEUR3] []),
            palletsGiven := some (gapFillPallets [pickupStopEUR3] []),
            exchanged := some true }],
         [gapFillWarningMsg])
  ∧ gapFillAssumedExchange [] (some "Müller GmbH") none none [] [] = ([], []) :=
  ⟨by
     have h := (claim_C3_amended [pickupStopEUR3] (some "Müller GmbH") none none [] []).1
       (by decide) (by decide) (by decide)
     simpa using h,
   (claim_C3_amended [] (some "Müller GmbH") none none [] []).2.2.1 (by decide)⟩

/-! ## Two-pass extraction result and validator
(`validateExtraction` in the two-pass validation module; the `TwoPass*` type
declarations live in the repository's type module and are reconstructed here
from their uses in the validator, transformer and extraction pass.) -/

/-- `TwoPassStopInfo` (one side of a two-pass extraction).  The source field
names `übernommen`/`überlassen` are transliterated. -/
structure TwoPassStopInfo where
  date : Option String := none
  time : Option String := none
  location : Option String := none
  address : Option String := none
  warehouseId : Option String := none
  uebernommen : Int := 0
  ueberlassen : Int := 0
deriving DecidableEq, Repr

/-- `TwoPassCarrier`. -/
structure TwoPassCarrier where
  name : Option String := none
  licensePlate : Option String := none
  driverCode : Option String := none
  driverName : Option String := none
deriving DecidableEq, Repr

/-- `TwoPassReferences`. -/
structure TwoPassReferences where
  sendungsnummer : Option String := none
  lieferscheinNr : Option String := none
  ladenummer : Option String := none
  dplVoucherNr : Option String := none
  tourNr : Option String := none
deriving DecidableEq, Repr

/-- `TwoPassExchangeStatus`; the source field `partial` is transliterated to
`partialStatus` (reserved word in Lean). -/
structure TwoPassExchangeStatus where
  exchanged : Option Bool := none
  partialStatus : Bool := false
  comment : Option String := none
  dplIssued : Bool := false
  nonExchangeReason : Option String := none
deriving DecidableEq, Repr

/-- `TwoPassExtractionResult`. -/
structure TwoPassExtractionResult where
  pickup : TwoPassStopInfo := {}
  delivery : TwoPassStopInfo := {}
  palletType : V010PalletType := .unknown
  saldo : Int := 0
  carrier : TwoPassCarrier := {}
  references : TwoPassReferences := {}
  exchangeStatus : TwoPassExchangeStatus := {}
  confidence : Rat := 0
  notes : Option String := none
deriving DecidableEq, Repr

/-- `TwoPassConfig.validation`. -/
structure TwoPassValidationConfig where
  autoCorrectSaldo : Bool
  autoCorrectExchangeStatus : Bool
  flagLowConfidence : Bool
  lowConfidenceThreshold : Rat
deriving DecidableEq, Repr

/-- `TwoPassConfig` (the validator only reads the `validation` block). -/
structure TwoPassConfig where
  validation : TwoPassValidationConfig
deriving DecidableEq, Repr

/-- `DEFAULT_CONFIG` from the two-pass config module (validation block). -/
def DEFAULT_CONFIG : TwoPassConfig :=
  { validation :=
    { autoCorrectSaldo := true,
      autoCorrectExchangeStatus := true,
      flagLowConfidence := true,
      lowConfidenceThreshold := 7/10 } }

/-- `ValidationResult` returned by `validateExtraction`. -/
structure ValidationResult where
  result : TwoPassExtractionResult
  errors : List String
  warnings : List String
  corrected : Bool
  isValid : Bool
deriving DecidableEq, Repr

/-- Mutable state of `validateExtraction`'s body: the working copy `result`
plus the `errors`/`warnings`/`corrected` accumulators. -/
structure VState where
  r : TwoPassExtractionResult
  errors : List String
  warnings : List String
  corrected : Bool
deriving DecidableEq, Repr

/-- The saldo-mismatch error message. -/
def saldoMismatchMsg (expected u ue got : Int) : String :=
  "Saldo mismatch: expected " ++ toString expected ++ " (übernommen " ++ toString u
    ++ " - überlassen " ++ toString ue ++ "), got " ++ toString got

/-- Step 1 of `validateExtraction`: validate and (optionally) correct the
saldo.  The expected saldo is computed from the DELIVERY side:
`result.delivery.übernommen - result.delivery.überlassen`. -/
def vStep1 (cfg : TwoPassConfig) (s : VState) : VState :=
  let expectedSaldo := s.r.delivery.uebernommen - s.r.delivery.ueberlassen
  if s.r.saldo ≠ expectedSaldo then
    let errors := s.errors ++ [saldoMismatchMsg expectedSaldo s.r.delivery.uebernommen
      s.r.delivery.ueberlassen s.r.saldo]
    if cfg.validation.autoCorrectSaldo then
      { s with errors := errors, r := { s.r with saldo := expectedSaldo }, corrected := true }
    else { s with errors := errors }
  else s

/-- Step 2: exchange-consistency check. -/
def vStep2 (cfg : TwoPassConfig) (s : VState) : VState :=
  if s.r.exchangeStatus.exchanged = some false ∧ s.r.delivery.uebernommen > 0 then
    let errors := s.errors ++ ["Inconsistent: marked as not exchanged but übernommen = "
      ++ toString s.r.delivery.uebernommen ++ " at delivery"]
    if cfg.validation.autoCorrectExchangeStatus then
      if s.r.delivery.uebernommen = s.r.delivery.ueberlassen then
        { s with
          errors := errors,
          r := { s.r with exchangeStatus := { s.r.exchangeStatus with exchanged := some true } },
          corrected := true }
      else
        { s with
          errors := errors,
          r := { s.r with exchangeStatus := { s.r.exchangeStatus with partialStatus := true } },
          corrected := true }
    else { s with errors := errors }
  else s

/-- Step 3: delivery-given vs pickup-received cross-check (warning only). -/
def vStep3 (s : VState) : VState :=
  if s.r.delivery.ueberlassen ≠ s.r.pickup.uebernommen then
    { s with warnings := s.warnings ++ ["überlassen at delivery ("
      ++ toString s.r.delivery.ueberlassen ++ ") doesn't match übernommen at pickup ("
      ++ toString s.r.pickup.uebernommen ++ ")"] }
  else s

/-- Step 4: DPL-voucher / fully-exchanged conflict. -/
def vStep4 (cfg : TwoPassConfig) (s : VState) : VState :=
  if s.r.exchangeStatus.dplIssued = true ∧ s.r.exchangeStatus.exchanged = some true then
    let errors := s.errors ++ ["DPL voucher issued but marked as fully exchanged"]
    if cfg.validation.autoCorrectExchangeStatus then
      { s with
        errors := errors,
        r := { s.r with exchangeStatus := { s.r.exchangeStatus with exchanged := some false } },
        corrected := true }
    else { s with errors := errors }
  else s

/-- Append a warning when the condition holds. -/
def warnIf (c : Bool) (msg : String) (s : VState) : VState :=
  if c then { s with warnings := s.warnings ++ [msg] } else s

/-- Step 5: missing voucher number warning. -/
def vStep5 (s : VState) : VState :=
  warnIf (s.r.exchangeStatus.dplIssued && !truthyStr s.r.references.dplVoucherNr)
    "DPL marked as issued but no voucher number provided" s

/-- Step 6: missing date / location / carrier-identification warnings. -/
def vStep6 (s : VState) : VState :=
  let s := warnIf (!truthyStr s.r.pickup.date && !truthyStr s.r.delivery.date)
    "No date found for pickup or delivery" s
  let s := warnIf (!truthyStr s.r.pickup.location && !truthyStr s.r.delivery.location)
    "No location found for pickup or delivery" s
  warnIf (!truthyStr s.r.carrier.name && !truthyStr s.r.carrier.licensePlate)
    "No carrier identification (name or license plate)" s

/-- Step 7: all-zero movement warning. -/
def vStep7 (s : VState) : VState :=
  warnIf (decide (s.r.pickup.uebernommen = 0 ∧ s.r.pickup.ueberlassen = 0
    ∧ s.r.delivery.uebernommen = 0 ∧ s.r.delivery.ueberlassen = 0))
    "No pallet movements detected" s

/-- The negative-quantity error message. -/
def negativeQtyMsg : String := "Negative pallet quantities detected"

/-- Step 8: negative-quantity hard error.  Note: only an error is pushed —
no branch of the validator rewrites the quantity fields. -/
def vStep8 (s : VState) : VState :=
  if s.r.pickup.uebernommen < 0 ∨ s.r.pickup.ueberlassen < 0
      ∨ s.r.delivery.uebernommen < 0 ∨ s.r.delivery.ueberlassen < 0 then
    { s with errors := s.errors ++ [negativeQtyMsg] }
  else s

/-- Step 9: unknown-pallet-type warning. -/
def vStep9 (s : VState) : VState :=
  warnIf (s.r.palletType == V010PalletType.unknown) "Pallet type is unknown" s

/-- Step 10: unclear exchange status warning. -/
def vStep10 (s : VState) : VState :=
  warnIf (s.r.exchangeStatus.exchanged == none) "Exchange status is unclear (null)" s

/-- The body of `validateExtraction` applied to the working state. -/
def validateSteps (cfg : TwoPassConfig) (s : VState) : VState :=
  vStep10 (vStep9 (vStep8 (vStep7 (vStep6 (vStep5 (vStep4 cfg (vStep3 (vStep2 cfg (vStep1 cfg s)))))))))

/-- `validateExtraction` from the two-pass validation module.  The source
first takes a deep copy `result = JSON.parse(JSON.stringify(extraction))`
(value-identical to the input) and mutates only that copy. -/
def validateExtraction (extraction : TwoPassExtractionResult)
    (config : TwoPassConfig) : ValidationResult :=
  let s := validateSteps config { r := extraction, errors := [], warnings := [], corrected := false }
  { result := s.r, errors := s.errors, warnings := s.warnings,
    corrected := s.corrected, isValid := s.errors.isEmpty }

/-! ## Heap view of the validator for the frame property (claim C9)

JavaScript objects are reference cells: the caller's `extraction` and the
validator's `result` copy are two distinct cells.  `VHeap` holds both; every
assignment `result.x = …` in the source is a write through the copy cell,
modelled by `liftToHeap`. -/

/-- Two-cell heap: the caller's record and the validator's deep copy. -/
structure VHeap where
  orig : TwoPassExtractionResult
  copy : TwoPassExtractionResult
deriving DecidableEq, Repr

/-- Heap-threaded validator state. -/
structure VHeapState where
  heap : VHeap
  errors : List String
  warnings : List String
  corrected : Bool
deriving DecidableEq, Repr

/-- Run one validator step with its writes directed at the copy cell. -/
def liftToHeap (f : VState → VState) (s : VHeapState) : VHeapState :=
  let t := f { r := s.heap.copy, errors := s.errors, warnings := s.warnings,
               corrected := s.corrected }
  { heap := { s.heap with copy := t.r }, errors := t.errors, warnings := t.warnings,
    corrected := t.corrected }

/-- `validateExtraction` with the heap made explicit: the deep copy
initializes the copy cell from the caller's cell, then all ten steps write
through the copy cell only. -/
def validateExtractionOnHeap (h : VHeap) (cfg : TwoPassConfig) : VHeapState :=
  let s0 : VHeapState :=
    { heap := { h with copy := h.orig }, errors := [], warnings := [], corrected := false }
  liftToHeap vStep10 (liftToHeap vStep9 (liftToHeap vStep8 (liftToHeap vStep7
    (liftToHeap vStep6 (liftToHeap vStep5 (liftToHeap (vStep4 cfg)
      (liftToHeap vStep3 (liftToHeap (vStep2 cfg) (liftToHeap (vStep1 cfg) s0)))))))))

/-! ## Output rows (`toLademittelmahnungFormat`, export module) -/

/-- One flattened `palletMovements` row of `LademittelmahnungOutput`. -/
structure LademittelmahnungRow where
  palletType : PalletType
  pickupReceived : Int
  pickupGiven : Int
  deliveryGiven : Int
  deliveryReceived : Int
  saldo : Int
deriving DecidableEq, Repr, Inhabited

/-- `sumPallets` from the export module. -/
def sumPallets (movements : List PalletMovement) (palletType : PalletType) : Int :=
  ((movements.filter (fun m => m.palletType = palletType)).map (fun m => m.quantity)).sum

/-- The `Set` of pallet types over all stops' movements, in insertion order. -/
def collectPalletTypes (stops : List StopExtraction) : List PalletType :=
  stops.foldl
    (fun acc stop =>
      (stop.palletsReceived ++ stop.palletsGiven).foldl
        (fun acc2 m => if m.palletType ∈ acc2 then acc2 else acc2 ++ [m.palletType]) acc)
    []

/-- The row-building loop of `toLademittelmahnungFormat`, parametrized by the
effective pickup/delivery stops chosen by `determinePickupAndDelivery`.
`saldo = pickupGiven - pickupReceived` (pickup side only). -/
def buildPalletMovementRows (effectivePickup effectiveDelivery : Option StopExtraction)
    (stops : List StopExtraction) : List LademittelmahnungRow :=
  (collectPalletTypes stops).foldl
    (fun rows t =>
      let pickupReceived := sumPallets ((effectivePickup.map StopExtraction.palletsReceived).getD []) t
      let pickupGiven := sumPallets ((effectivePickup.map StopExtraction.palletsGiven).getD []) t
      let deliveryGiven := sumPallets ((effectiveDelivery.map StopExtraction.palletsGiven).getD []) t
      let deliveryReceived := sumPallets ((effectiveDelivery.map StopExtraction.palletsReceived).getD []) t
      let saldo := pickupGiven - pickupReceived
      if pickupReceived > 0 ∨ pickupGiven > 0 ∨ deliveryGiven > 0 ∨ deliveryReceived > 0 then
        rows ++ [{ palletType := t, pickupReceived := pickupReceived, pickupGiven := pickupGiven,
                   deliveryGiven := deliveryGiven, deliveryReceived := deliveryReceived,
                   saldo := saldo }]
      else rows)
    []

/-! ## Frame lemmas for the validator steps -/

theorem warnIf_r (c : Bool) (m : String) (s : VState) : (warnIf c m s).r = s.r := by
  unfold warnIf; split <;> rfl

theorem warnIf_errors (c : Bool) (m : String) (s : VState) :
    (warnIf c m s).errors = s.errors := by
  unfold warnIf; split <;> rfl

theorem vStep1_pickup (cfg : TwoPassConfig) (s : VState) :
    (vStep1 cfg s).r.pickup = s.r.pickup := by
  unfold vStep1; dsimp only; split_ifs <;> rfl

theorem vStep1_delivery (cfg : TwoPassConfig) (s : VState) :
    (vStep1 cfg s).r.delivery = s.r.delivery := by
  unfold vStep1; dsimp only; split_ifs <;> rfl

theorem vStep2_pickup (cfg : TwoPassConfig) (s : VState) :
    (vStep2 cfg s).r.pickup = s.r.pickup := by
  unfold vStep2; dsimp only; split_ifs <;> rfl

theorem vStep2_delivery (cfg : TwoPassConfig) (s : VState) :
    (vStep2 cfg s).r.delivery = s.r.delivery := by
  unfold vStep2; dsimp only; split_ifs <;> rfl

theorem vStep2_saldo (cfg : TwoPassConfig) (s : VState) :
    (vStep2 cfg s).r.saldo = s.r.saldo := by
  unfold vStep2; dsimp only; split_ifs <;> rfl

theorem vStep3_r (s : VState) : (vStep3 s).r = s.r := by
  unfold vStep3; split_ifs <;> rfl

theorem vStep4_pickup (cfg : TwoPassConfig) (s : VState) :
    (vStep4 cfg s).r.pickup = s.r.pickup := by
  unfold vStep4; dsimp only; split_ifs <;> rfl

theorem vStep4_delivery (cfg : TwoPassConfig) (s : VState) :
    (vStep4 cfg s).r.delivery = s.r.delivery := by
  unfold vStep4; dsimp only; split_ifs <;> rfl

theorem vStep4_saldo (cfg : TwoPassConfig) (s : VState) :
    (vStep4 cfg s).r.saldo = s.r.saldo := by
  unfold vStep4; dsimp only; split_ifs <;> rfl

theorem vStep5_r (s : VState) : (vStep5 s).r = s.r := warnIf_r _ _ _

theorem vStep6_r (s : VState) : (vStep6 s).r = s.r := by
  unfold vStep6
  simp [warnIf_r]

theorem vStep7_r (s : VState) : (vStep7 s).r = s.r := warnIf_r _ _ _

theorem vStep8_r (s : VState) : (vStep8 s).r = s.r := by
  unfold vStep8; split_ifs <;> rfl

theorem vStep9_r (s : VState) : (vStep9 s).r = s.r := warnIf_r _ _ _

theorem vStep9_errors (s : VState) : (vStep9 s).errors = s.errors := warnIf_errors _ _ _

theorem vStep10_r (s : VState) : (vStep10 s).r = s.r := warnIf_r _ _ _

theorem vStep10_errors (s : VState) : (vStep10 s).errors = s.errors := warnIf_errors _ _ _

theorem validateSteps_saldo (cfg : TwoPassConfig) (s : VState) :
    (validateSteps cfg s).r.saldo = (vStep1 cfg s).r.saldo := by
  unfold validateSteps
  rw [vStep10_r, vStep9_r, vStep8_r, vStep7_r, vStep6_r, vStep5_r, vStep4_saldo, vStep3_r,
    vStep2_saldo]

/-! ## Claim C1 — what "computed saldo" actually is -/

/-- Concrete extraction whose reported saldo (8) equals the pickup-side
difference `pickupGiven − pickupReceived = 10 − 2`, while the delivery side
reads übernommen 5 / überlassen 0. -/
def saldoDemoExtraction : TwoPassExtractionResult :=
  { pickup := { uebernommen := 2, ueberlassen := 10 },
    delivery := { uebernommen := 5, ueberlassen := 0 },
    saldo := 8,
    exchangeStatus := { exchanged := some true } }

/-- C1 (counterexample): the claim says the validator's computed saldo is the
pickup-side quantity `pickupGiven − pickupReceived`.  On an extraction whose
reported saldo equals exactly that pickup-side value (8), the validator still
raises a saldo-mismatch error and auto-corrects the saldo to the
delivery-side difference `delivery.übernommen − delivery.überlassen = 5`. -/
theorem claim_C1_counterexample :
    saldoDemoExtraction.saldo
      = saldoDemoExtraction.pickup.ueberlassen - saldoDemoExtraction.pickup.uebernommen
  ∧ (validateExtraction saldoDemoExtraction DEFAULT_CONFIG).result.saldo = 5
  ∧ (validateExtraction saldoDemoExtraction DEFAULT_CONFIG).errors ≠ []
  ∧ (5 : Int) ≠ saldoDemoExtraction.pickup.ueberlassen - saldoDemoExtraction.pickup.uebernommen := by
  refine ⟨by decide, ?_, ?_, by decide⟩
  · decide
  · decide

theorem buildRows_saldo_aux (ep ed : Option StopExtraction)
    (types : List PalletType) (rows0 : List LademittelmahnungRow)
    (h0 : ∀ r ∈ rows0, r.saldo = r.pickupGiven - r.pickupReceived) :
    ∀ r ∈ types.foldl
      (fun rows t =>
        let pickupReceived := sumPallets ((ep.map StopExtraction.palletsReceived).getD []) t
        let pickupGiven := sumPallets ((ep.map StopExtraction.palletsGiven).getD []) t
        let deliveryGiven := sumPallets ((ed.map StopExtraction.palletsGiven).getD []) t
        let deliveryReceived := sumPallets ((ed.map StopExtraction.palletsReceived).getD []) t
        let saldo := pickupGiven - pickupReceived
        if pickupReceived > 0 ∨ pickupGiven > 0 ∨ deliveryGiven > 0 ∨ deliveryReceived > 0 then
          rows ++ [{ palletType := t, pickupReceived := pickupReceived, pickupGiven := pickupGiven,
                     deliveryGiven := deliveryGiven, deliveryReceived := deliveryReceived,
                     saldo := saldo }]
        else rows) rows0,
      r.saldo = r.pickupGiven - r.pickupReceived := by
  induction types generalizing rows0 with
  | nil => exact h0
  | cons t rest ih =>
    intro r hr
    refine ih _ ?_ r hr
    intro r' hr'
    dsimp only at hr'
    split at hr'
    · rcases List.mem_append.mp hr' with hmem | hmem
      · exact h0 r' hmem
      · simp at hmem
        subst hmem
        rfl
    · exact h0 r' hr'

/-- C1 (amended): every flattened output row built by
`toLademittelmahnungFormat` carries `saldo = pickupGiven − pickupReceived`
(delivery figures never enter it); the two-pass validator's computed saldo,
however, is the DELIVERY-side difference — with `autoCorrectSaldo` enabled
the validated record's saldo always equals
`delivery.übernommen − delivery.überlassen`. -/
theorem claim_C1_amended (e : TwoPassExtractionResult) (cfg : TwoPassConfig)
    (ep ed : Option StopExtraction) (stops : List StopExtraction) :
    (cfg.validation.autoCorrectSaldo = true →
      (validateExtraction e cfg).result.saldo
        = e.delivery.uebernommen - e.delivery.ueberlassen)
  ∧ (∀ r ∈ buildPalletMovementRows ep ed stops,
      r.saldo = r.pickupGiven - r.pickupReceived) := by
  constructor
  · intro hc
    unfold validateExtraction
    dsimp only
    rw [validateSteps_saldo]
    unfold vStep1
    dsimp only
    simp only [hc, eq_self_iff_true, if_true]
    split_ifs with h1
    · rfl
    · simp only [ne_eq, not_not] at h1
      exact h1
  · unfold buildPalletMovementRows
    exact buildRows_saldo_aux ep ed (collectPalletTypes stops) [] (by simp)

/-- Concrete pickup stop: received 2 EUR, gave 10 EUR. -/
def demoPickupStop : StopExtraction :=
  { locationType := .pickup, locationName := "AL Bockenem",
    palletsReceived := [{ palletType := .EUR, quantity := 2 }],
    palletsGiven := [{ palletType := .EUR, quantity := 10 }] }

/-- The first output row built from the concrete pickup stop. -/
def demoRow : LademittelmahnungRow :=
  (buildPalletMovementRows (some demoPickupStop) none [demoPickupStop]).headI

/-- C1 witness: the amended theorem applied at the concrete extraction and
the concrete output row. -/
theorem claim_C1_amended_witness :
    (validateExtraction saldoDemoExtraction DEFAULT_CONFIG).result.saldo
      = saldoDemoExtraction.delivery.uebernommen - saldoDemoExtraction.delivery.ueberlassen
  ∧ demoRow.saldo = demoRow.pickupGiven - demoRow.pickupReceived :=
  ⟨(claim_C1_amended saldoDemoExtraction DEFAULT_CONFIG (some demoPickupStop) none
      [demoPickupStop]).1 rfl,
   (claim_C1_amended saldoDemoExtraction DEFAULT_CONFIG (some demoPickupStop) none
      [demoPickupStop]).2 demoRow (by decide)⟩

/-! ## Claim C8 — negative quantities: hard error, never corrected -/

/-- C8: whenever any of the four quantity fields is negative, validation
raises the hard error, leaves all four quantity fields exactly as they were
(under EVERY configuration, auto-correct flags included), and the result is
invalid. -/
theorem claim_C8_negative_quantity (e : TwoPassExtractionResult) (cfg : TwoPassConfig)
    (h : e.pickup.uebernommen < 0 ∨ e.pickup.ueberlassen < 0
      ∨ e.delivery.uebernommen < 0 ∨ e.delivery.ueberlassen < 0) :
    negativeQtyMsg ∈ (validateExtraction e cfg).errors
  ∧ (validateExtraction e cfg).result.pickup = e.pickup
  ∧ (validateExtraction e cfg).result.delivery = e.delivery
  ∧ (validateExtraction e cfg).isValid = false := by
  unfold validateExtraction
  dsimp only
  unfold validateSteps
  set s0 : VState := { r := e, errors := [], warnings := [], corrected := false } with hs0
  set s7 := vStep7 (vStep6 (vStep5 (vStep4 cfg (vStep3 (vStep2 cfg (vStep1 cfg s0)))))) with hs7
  have hp7 : s7.r.pickup = e.pickup := by
    rw [hs7, vStep7_r, vStep6_r, vStep5_r, vStep4_pickup, vStep3_r, vStep2_pickup, vStep1_pickup]
  have hd7 : s7.r.delivery = e.delivery := by
    rw [hs7, vStep7_r, vStep6_r, vStep5_r, vStep4_delivery, vStep3_r, vStep2_delivery,
      vStep1_delivery]
  have h8 : vStep8 s7 = { s7 with errors := s7.errors ++ [negativeQtyMsg] } := by
    unfold vStep8
    rw [if_pos (by rw [hp7, hd7]; exact h)]
  have hmem : negativeQtyMsg ∈ (vStep10 (vStep9 (vStep8 s7))).errors := by
    rw [vStep10_errors, vStep9_errors, h8]
    simp
  have hr : (vStep10 (vStep9 (vStep8 s7))).r = s7.r := by
    rw [vStep10_r, vStep9_r, h8]
  refine ⟨hmem, by rw [hr, hp7], by rw [hr, hd7], ?_⟩
  have hne : (vStep10 (vStep9 (vStep8 s7))).errors ≠ [] := by
    intro hnil
    rw [hnil] at hmem
    simp at hmem
  simpa [List.isEmpty_iff] using hne

/-- Concrete extraction with a negative pickup quantity. -/
def negExtraction : TwoPassExtractionResult := { pickup := { uebernommen := -1 } }

/-- C8 witness: the theorem applied to the concrete negative extraction
under the default (all auto-corrections on) configuration. -/
theorem claim_C8_negative_quantity_witness :
    negativeQtyMsg ∈ (validateExtraction negExtraction DEFAULT_CONFIG).errors
  ∧ (validateExtraction negExtraction DEFAULT_CONFIG).result.pickup = negExtraction.pickup
  ∧ (validateExtraction negExtraction DEFAULT_CONFIG).result.delivery = negExtraction.delivery
  ∧ (validateExtraction negExtraction DEFAULT_CONFIG).isValid = false :=
  claim_C8_negative_quantity negExtraction DEFAULT_CONFIG (Or.inl (by decide))

/-! ## Claim C9 — validation never mutates the caller's record -/

/-- Project the validator-visible state out of the heap-threaded state. -/
def toVState (s : VHeapState) : VState :=
  { r := s.heap.copy, errors := s.errors, warnings := s.warnings, corrected := s.corrected }

theorem liftToHeap_orig (f : VState → VState) (s : VHeapState) :
    (liftToHeap f s).heap.orig = s.heap.orig := rfl

theorem toVState_liftToHeap (f : VState → VState) (s : VHeapState) :
    toVState (liftToHeap f s) = f (toVState s) := rfl

/-- C9: in the heap model of `validateExtraction` — where the caller's record
and the deep copy occupy two distinct cells, and every assignment of the
source writes through the copy cell — the caller's cell is unchanged when
validation returns, and the copy cell holds exactly the (possibly
auto-corrected) validation result, available alongside the original. -/
theorem claim_C9_no_mutation (h : VHeap) (cfg : TwoPassConfig) :
    (validateExtractionOnHeap h cfg).heap.orig = h.orig
  ∧ (validateExtractionOnHeap h cfg).heap.copy = (validateExtraction h.orig cfg).result
  ∧ (validateExtractionOnHeap h cfg).errors = (validateExtraction h.orig cfg).errors
  ∧ (validateExtractionOnHeap h cfg).warnings = (validateExtraction h.orig cfg).warnings := by
  have key : toVState (validateExtractionOnHeap h cfg)
      = validateSteps cfg { r := h.orig, errors := [], warnings := [], corrected := false } := by
    unfold validateExtractionOnHeap validateSteps
    simp only [toVState_liftToHeap]
    rfl
  refine ⟨?_, ?_, ?_, ?_⟩
  · unfold validateExtractionOnHeap
    simp only [liftToHeap_orig]
  · show (toVState (validateExtractionOnHeap h cfg)).r = _
    rw [key]
    rfl
  · show (toVState (validateExtractionOnHeap h cfg)).errors = _
    rw [key]
    rfl
  · show (toVState (validateExtractionOnHeap h cfg)).warnings = _
    rw [key]
    rfl

/-! ## Claim C10 — classification confidence clamping

`classifyPage` (v1 classifier) calls the oracle, parses the JSON response and
normalizes it; the oracle call and JSON parsing are external (§6 of the spec),
so the embedding covers the pure normalization applied to the parsed
response.  Likewise `normalizeClassification` from the two-pass classifier. -/

/-- `DocumentType` of the v1 pipeline. -/
inductive DocumentType where
  | lieferschein
  | ladeliste
  | palettennachweis
  | wareneingangsbeleg
  | unknown
deriving DecidableEq, Repr

/-- `normalizeDocumentType` of the v1 classifier. -/
def normalizeDocumentTypeV1 (type : String) : DocumentType :=
  let normalized := lowerTrim type
  if normalized == "lieferschein" then .lieferschein
  else if normalized == "ladeliste" || normalized == "ladeschein" then .ladeliste
  else if normalized == "palettennachweis" then .palettennachweis
  else if normalized == "wareneingangsbeleg" || normalized == "wareneingang" then
    .wareneingangsbeleg
  else .unknown

/-- The optional `identifiers` block of a raw classification response. -/
structure RawClassificationIdentifiers where
  orderNumbers : Option (List String) := none
  dates : Option (List String) := none
  companies : Option (List String) := none
deriving DecidableEq, Repr

/-- `RawClassificationResponse` of the v1 classifier (already JSON-parsed). -/
structure RawClassificationResponse where
  documentType : String
  confidence : Rat
  identifiers : Option RawClassificationIdentifiers := none
  reasoning : Option String := none
deriving DecidableEq, Repr

/-- The `identifiers` block of a `ClassificationResult`. -/
structure ClassificationIdentifiers where
  orderNumbers : List String
  dates : List String
  companies : List String
deriving DecidableEq, Repr

/-- `ClassificationResult` of the v1 classifier. -/
structure ClassificationResult where
  documentType : DocumentType
  confidence : Rat
  identifiers : ClassificationIdentifiers
deriving DecidableEq, Repr

/-- `Math.max(0, Math.min(1, x))`. -/
def clamp01 (x : Rat) : Rat := max 0 (min 1 x)

/-- The pure normalization `classifyPage` applies to the parsed oracle
response. -/
def classifyPageNormalize (parsed : RawClassificationResponse) : ClassificationResult :=
  { documentType := normalizeDocumentTypeV1 parsed.documentType,
    confidence := clamp01 parsed.confidence,
    identifiers :=
      { orderNumbers := (parsed.identifiers.bind RawClassificationIdentifiers.orderNumbers).getD [],
        dates := (parsed.identifiers.bind RawClassificationIdentifiers.dates).getD [],
        companies := (parsed.identifiers.bind RawClassificationIdentifiers.companies).getD [] } }

/-- `TwoPassDocumentType` of the two-pass classifier. -/
inductive TwoPassDocumentType where
  | ladeliste
  | ladeschein
  | lieferschein_with_pallets
  | palettenschein
  | palettennachweis
  | dpl_gutschrift
  | wareneingangsbeleg
  | wareneingangsbestaetigung
  | desadv_with_stamps
  | speditions_auftrag
  | palettenbewegung
  | other_relevant
  | lieferschein_product_only
  | desadv_no_stamps
  | pfand_berechnung
  | invoice
  | blank
  | other_irrelevant
  | unknown
deriving DecidableEq, Repr

/-- Lower-case, trim, then replace every dash with an underscore (the
`replace` regex step of the two-pass `normalizeDocumentType`). -/
def lowerTrimUnderscore (s : String) : String :=
  String.mk ((lowerTrim s).toList.map (fun c => if c = '-' then '_' else c))

/-- `VALID_DOCUMENT_TYPES.includes(normalized)` together with the cast back
to the enumeration: the member of the closed list a normalized string spells,
if any. -/
def twoPassTypeOfString (s : String) : Option TwoPassDocumentType :=
  if s == "ladeliste" then some .ladeliste
  else if s == "ladeschein" then some .ladeschein
  else if s == "lieferschein_with_pallets" then some .lieferschein_with_pallets
  else if s == "palettenschein" then some .palettenschein
  else if s == "palettennachweis" then some .palettennachweis
  else if s == "dpl_gutschrift" then some .dpl_gutschrift
  else if s == "wareneingangsbeleg" then some .wareneingangsbeleg
  else if s == "wareneingangsbestaetigung" then some .wareneingangsbestaetigung
  else if s == "desadv_with_stamps" then some .desadv_with_stamps
  else if s == "speditions_auftrag" then some .speditions_auftrag
  else if s == "palettenbewegung" then some .palettenbewegung
  else if s == "other_relevant" then some .other_relevant
  else if s == "lieferschein_product_only" then some .lieferschein_product_only
  else if s == "desadv_no_stamps" then some .desadv_no_stamps
  else if s == "pfand_berechnung" then some .pfand_berechnung
  else if s == "invoice" then some .invoice
  else if s == "blank" then some .blank
  else if s == "other_irrelevant" then some .other_irrelevant
  else if s == "unknown" then some .unknown
  else none

/-- `normalizeDocumentType` of the two-pass classifier. -/
def normalizeDocumentTypeTwoPass (type : String) : TwoPassDocumentType :=
  let normalized := lowerTrimUnderscore type
  match twoPassTypeOfString normalized with
  | some t => t
  | none =>
    if strHasSub normalized "lieferschein" && strHasSub normalized "pallet" then
      .lieferschein_with_pallets
    else if strHasSub normalized "lieferschein" && strHasSub normalized "product" then
      .lieferschein_product_only
    else if strHasSub normalized "ladeliste" then .ladeliste
    else if strHasSub normalized "ladeschein" then .ladeschein
    else if strHasSub normalized "palettenschein" then .palettenschein
    else if strHasSub normalized "palettennachweis" then .palettennachweis
    else if strHasSub normalized "palettenbewegung" then .palettenbewegung
    else if strHasSub normalized "wareneingangsbestaetigung" then .wareneingangsbestaetigung
    else if strHasSub normalized "wareneingang" || strHasSub normalized "we_beleg" then
      .wareneingangsbeleg
    else if strHasSub normalized "dpl" || strHasSub normalized "gutschrift" then .dpl_gutschrift
    else if strHasSub normalized "desadv" && strHasSub normalized "stamp" then .desadv_with_stamps
    else if strHasSub normalized "desadv" then .desadv_no_stamps
    else if strHasSub normalized "speditions" then .speditions_auftrag
    else if strHasSub normalized "pfand" then .pfand_berechnung
    else if strHasSub normalized "rechnung" || strHasSub normalized "invoice" then .invoice
    else if normalized == "blank" || strHasSub normalized "empty" then .blank
    else if strHasSub normalized "other" && strHasSub normalized "relevant" then .other_relevant
    else if strHasSub normalized "other" && strHasSub normalized "irrelevant" then
      .other_irrelevant
    else .unknown

/-- Raw per-page classification of the two-pass classifier (already
JSON-parsed; named `RawClassificationResponse` in its own module). -/
structure RawPageClassification where
  pageNumber : Int
  isRelevant : Bool
  documentType : String
  confidence : Rat
  keyReferences : Option (List String) := none
  palletInfoFound : Option String := none
  reason : Option String := none
deriving DecidableEq, Repr

/-- `PageClassification` of the two-pass classifier. -/
structure PageClassification where
  pageNumber : Int
  isRelevant : Bool
  documentType : TwoPassDocumentType
  confidence : Rat
  keyReferences : List String
  palletInfoFound : Option String
  reason : String
deriving DecidableEq, Repr

/-- `normalizeClassification` of the two-pass classifier. -/
def normalizeClassification (raw : RawPageClassification) : PageClassification :=
  { pageNumber := raw.pageNumber,
    isRelevant := raw.isRelevant,
    documentType := normalizeDocumentTypeTwoPass raw.documentType,
    confidence := clamp01 raw.confidence,
    keyReferences := raw.keyReferences.getD [],
    palletInfoFound := raw.palletInfoFound.bind (fun s => if s = "" then none else some s),
    reason := raw.reason.getD "" }

/-- C10: the confidence stored by `classifyPage`'s normalization and by the
two-pass `normalizeClassification` is always clamped into `[0, 1]`, whatever
confidence value the oracle reported (negative or above one included). -/
theorem claim_C10_confidence_clamped (raw1 : RawClassificationResponse)
    (raw2 : RawPageClassification) :
    (0 ≤ (classifyPageNormalize raw1).confidence
      ∧ (classifyPageNormalize raw1).confidence ≤ 1)
  ∧ (0 ≤ (normalizeClassification raw2).confidence
      ∧ (normalizeClassification raw2).confidence ≤ 1) := by
  unfold classifyPageNormalize normalizeClassification clamp01
  exact ⟨⟨le_max_left _ _, max_le (by norm_num) (min_le_left _ _)⟩,
         ⟨le_max_left _ _, max_le (by norm_num) (min_le_left _ _)⟩⟩

end PalletDoc
